import Mathlib

/-!
Verification of the godo command-line todo client/server.

The development shallowly embeds the Go source of the repository:

* the in-memory store `lists : map[string][]Todo` becomes `Store`, a
  function from list names to sequences of todos, with `storeSet`
  modelling a map assignment and `emptyStore` the freshly made map;
* the HTTP handlers `createTodo`, `listTodos`, `handler` and `counter`
  become pure functions over that state, taking the decoded request and
  the current clock tick as inputs; the value that Go reads from
  `time.Now()` is modelled as a natural-number tick;
* a panic raised by a handler (as `log.Panic` does on a JSON decode
  failure) is modelled by the result `CreateResult.panicked`: the
  processing of that request aborts, no response is written and no
  further statement of the handler runs; at the server level the
  `net/http` harness the source installs its handlers into recovers a
  handler panic per connection, so the process survives and later
  requests are still served — the `serve` loop models this;
* the fan-out fetcher `fetchall`/`fetchC` and the sequential `fetch`
  are modelled against an oracle assigning each URL the outcome of its
  GET request (the network is an input of the program); elapsed-time
  rendering of the %.2f format is likewise oracle-supplied text, since
  wall-clock timing is an environment input;
* `strings.HasPrefix` is `hasPrefix`, comparing the character sequences
  of the two strings, and `ensureProtocol` is translated literally.
-/

namespace Godo

/-- A Todo record as declared in the source: body text, completed flag
and creation timestamp (the `time.Time` value is modelled as a natural
number tick). -/
structure Todo where
  body : String
  completed : Bool
  createdAt : Nat
deriving DecidableEq, Repr

/-- The in-memory store `lists : map[string][]Todo`: a mapping from list
name to the ordered sequence of todos saved under it.  A missing key
reads as the empty sequence, exactly as a Go map read of an absent key
yields the nil slice. -/
def Store : Type := String → List Todo

/-- The store at process start: `make(map[string][]Todo)`, every key
absent. -/
def emptyStore : Store := fun _ => []

/-- A Go map assignment `m[k] = v`: the store afterwards. -/
def storeSet (s : Store) (k : String) (v : List Todo) : Store :=
  fun k2 => if k2 = k then v else s k2

/-- The decoded JSON body of a create request: the anonymous struct
with fields `List` and `Todo` that `createTodo` decodes into. -/
structure CreateReq where
  list : String
  todo : String
deriving DecidableEq, Repr

/-- Go renders a string in quotes for %q and for JSON; the escaping of
special characters inside the text is elided, plain text is rendered
verbatim between the quotes. -/
def quoteStr (s : String) : String := "\"" ++ s ++ "\""

/-- The JSON rendering of the creation timestamp.  Go marshals the
`time.Time` as an RFC3339 text; with the clock modelled as a natural
number tick, the rendering is the decimal numeral of the tick.  Its
only property the claims use is that the text is never empty. -/
def timeJson (n : Nat) : String := Nat.repr n

/-- The JSON object `json.Marshal` produces for a `Todo` under the
struct tags body, completed, created_at. -/
def todoJson (t : Todo) : String :=
  "\x7b\"body\":" ++ quoteStr t.body ++ ",\"completed\":" ++
    (cond t.completed "true" "false") ++ ",\"created_at\":" ++
    quoteStr (timeJson t.createdAt) ++ "\x7d"

/-- Outcome of one run of the create handler: either the handler
panicked (`log.Panic` on a decode failure, aborting the processing of
that request with no response written), or it finished normally,
storing the todo and writing its JSON rendering as the response. -/
inductive CreateResult where
  | panicked : CreateResult
  | ok : Todo → String → CreateResult
deriving DecidableEq

/-- The createTodo handler.  Its input is the decode outcome of the
request body (`none` when `decoder.Decode` fails), the current clock
tick, and the store; it returns the handler outcome and the store
afterwards.  On a decode failure `log.Panic` fires before any store
access, so the store is returned untouched and no response exists.
Otherwise the handler builds the Todo with completed `false` and
created_at `now`, runs `lists[key] = append(lists[key], t)`, and
responds with the marshalled todo. -/
def createTodo (req : Option CreateReq) (now : Nat) (store : Store) :
    CreateResult × Store :=
  match req with
  | none => (CreateResult.panicked, store)
  | some b =>
    let t : Todo := { body := b.todo, completed := false, createdAt := now }
    let key := b.list
    let newStore := storeSet store key (store key ++ [t])
    (CreateResult.ok t (todoJson t), newStore)

/-- The listTodos handler: it marshals the whole mapping and writes it
as the response, never writing to the store.  The first component is
the snapshot it serializes, the second the store after the handler. -/
def listTodos (store : Store) : Store × Store := (store, store)

/-- The serving loop the create handler runs under.  The source
installs createTodo via http.HandleFunc and http.ListenAndServe, and
the net/http server runs each connection with a deferred recover: when
a handler panics (as log.Panic does on a decode failure) the server
catches the panic, closes that one connection without a response, and
the process goes on serving.  So a sequence of create requests, each
given as its decode outcome and clock tick, is processed in order and
no handler outcome stops the loop: the result is the final store and
the per-request outcomes. -/
def serve (reqs : List (Option CreateReq × Nat)) (store : Store) :
    Store × List CreateResult :=
  match reqs with
  | [] => (store, [])
  | r :: rest =>
    let step := createTodo r.1 r.2 store
    let next := serve rest step.2
    (next.1, step.1 :: next.2)

/-- A sequence of create calls against one list: each call feeds the
store the previous call left.  Every element of calls carries the todo
text and the clock tick of that call. -/
def createSeq (k : String) (calls : List (String × Nat)) (store : Store) :
    Store :=
  calls.foldl (fun s c => (createTodo (some { list := k, todo := c.1 }) c.2 s).2)
    store

/-- Interleaving of two concurrent createTodo handlers on the same key
under the schedule read1, read2, write1, write2.  The statement
`lists[key] = append(lists[key], t)` is not atomic: each goroutine
first reads the slice for the key, appends to its private copy, then
assigns the map entry; `createTodo` takes no lock, so both reads can
happen before either assignment. -/
def createRace (k : String) (t1 t2 : Todo) (store : Store) : Store :=
  let read1 := store k
  let read2 := store k
  let afterWrite1 := storeSet store k (read1 ++ [t1])
  let afterWrite2 := storeSet afterWrite1 k (read2 ++ [t2])
  afterWrite2

/-- The root handler: increments the request count under the mutex and
echoes `URL.Path = "<path>"` followed by a newline. -/
def handler (cnt : Nat) (path : String) : Nat × String :=
  (cnt + 1, "URL.Path = " ++ quoteStr path ++ "\n")

/-- The count handler: reads the request count under the mutex and
writes `Count <n>` followed by a newline. -/
def counter (cnt : Nat) : Nat × String :=
  (cnt, "Count " ++ Nat.repr cnt ++ "\n")

/-- The request count after a sequence of root-path hits, starting from
the given count. -/
def runRoot (cnt : Nat) (paths : List String) : Nat :=
  paths.foldl (fun c p => (handler c p).1) cnt

/-- Outcome of the GET request (and body read) for one URL, as the
network resolves it: the GET itself fails, the body read fails, or both
succeed yielding the rendered elapsed seconds and the byte count. -/
inductive FetchOutcome where
  | getError : String → FetchOutcome
  | readError : String → FetchOutcome
  | success : String → Nat → FetchOutcome
deriving DecidableEq

/-- The %7d rendering of the byte count: the decimal numeral
right-justified to width seven with spaces. -/
def pad7 (n : Nat) : String :=
  String.mk (List.replicate (7 - (Nat.repr n).length) ' ') ++ Nat.repr n

/-- One fan-out fetch task.  fetchC issues the GET for its URL exactly
as given (no normalization happens on this path) and sends exactly one
line on the channel: the error text when the GET fails, a while-reading
line when the body read fails, and otherwise the summary line
`<secs>s<TAB><bytes><TAB><url>`. -/
def fetchC (oracle : String → FetchOutcome) (url : String) : String :=
  match oracle url with
  | FetchOutcome.getError msg => msg
  | FetchOutcome.readError msg => "while reading " ++ url ++ ": " ++ msg
  | FetchOutcome.success secsStr nbytes =>
      secsStr ++ "s\t" ++ pad7 nbytes ++ "\t" ++ url

/-- The multiset of lines fetchall prints: one goroutine per URL, each
sending exactly one line on the shared channel; the receive loop runs
once per argument, so the printed lines are these, in completion
order (a permutation of this list). -/
def fetchallLines (oracle : String → FetchOutcome) (urls : List String) :
    List String :=
  urls.map (fetchC oracle)

/-- Go strings.HasPrefix: the second string is an initial segment of
the first. -/
def hasPrefix (s p : String) : Bool := p.data.isPrefixOf s.data

/-- ensureProtocol, translated literally from the source: if the URL
does not start with http:// then prepend it, else return the URL
unchanged. -/
def ensureProtocol (url : String) : String :=
  let protocol := "http://"
  if !(hasPrefix url protocol) then protocol ++ url else url

/-- The sequence of URLs the sequential fetch path hands to http.Get,
in order.  Each loop iteration first normalizes the argument with
ensureProtocol and then issues the GET for the normalized URL; on a GET
error or a body-read error the process exits (os.Exit 1), so no later
argument is fetched. -/
def fetchTargets (oracle : String → FetchOutcome) (args : List String) :
    List String :=
  match args with
  | [] => []
  | u :: rest =>
    let target := ensureProtocol u
    match oracle target with
    | FetchOutcome.getError _ => [target]
    | FetchOutcome.readError _ => [target]
    | FetchOutcome.success _ _ => target :: fetchTargets oracle rest

/-- A network oracle for the counterexample runs: every URL that starts
with http:// resolves successfully, every other URL fails its GET the
way net/http fails a URL without a scheme. -/
def schemeOracle : String → FetchOutcome := fun u =>
  if hasPrefix u "http://" then FetchOutcome.success "0.10" 5
  else FetchOutcome.getError "unsupported protocol scheme"

/-! ### Helper lemmas -/

/-- Prepending a text makes it an initial segment. -/
theorem hasPrefix_of_append (p u : String) : hasPrefix (p ++ u) p = true := by
  simp [hasPrefix, String.data_append]

/-- Every output of ensureProtocol starts with http://. -/
theorem ensureProtocol_hasPrefix (u : String) :
    hasPrefix (ensureProtocol u) "http://" = true := by
  unfold ensureProtocol
  by_cases h : hasPrefix u "http://" = true
  · simp [h]
  · simp only [Bool.not_eq_true] at h
    simp [h, hasPrefix_of_append]

/-- Unfolding of a sequence of create calls at its target key: the
calls append their todos, in order. -/
theorem createSeq_apply (k : String) (calls : List (String × Nat)) :
    ∀ store : Store, createSeq k calls store k =
      store k ++ calls.map (fun c => Todo.mk c.1 false c.2) := by
  induction calls with
  | nil => intro store; simp [createSeq]
  | cons c rest ih =>
    intro store
    simp only [createSeq, List.foldl_cons, List.map_cons] at *
    rw [ih]
    simp [createTodo, storeSet, List.append_assoc]

/-- A root-path hit adds one to the count, so a run of hits adds the
number of hits. -/
theorem runRoot_eq (paths : List String) :
    ∀ cnt : Nat, runRoot cnt paths = cnt + paths.length := by
  induction paths with
  | nil => intro cnt; simp [runRoot]
  | cons p rest ih =>
    intro cnt
    simp only [runRoot, List.foldl_cons] at *
    rw [ih]
    simp [handler]
    omega

/-- Fuel-indexed digit accumulation never shrinks the accumulator. -/
theorem toDigitsCore_length_ge (b : Nat) (f : Nat) :
    ∀ (n : Nat) (l : List Char),
      l.length ≤ (Nat.toDigitsCore b f n l).length := by
  induction f with
  | zero => intro n l; simp [Nat.toDigitsCore]
  | succ f ih =>
    intro n l
    simp only [Nat.toDigitsCore]
    by_cases h : n / b = 0
    · simp [h]
    · simp only [h, if_false]
      calc l.length ≤ (Nat.digitChar (n % b) :: l).length := by simp
        _ ≤ _ := ih (n / b) (Nat.digitChar (n % b) :: l)

/-- The decimal numeral of a natural number is never the empty text. -/
theorem repr_ne_empty (n : Nat) : Nat.repr n ≠ "" := by
  have h : 1 ≤ (Nat.repr n).length := by
    show 1 ≤ (Nat.repr n).length
    simp only [Nat.repr, Nat.toDigits, String.length, List.asString]
    simp only [Nat.toDigitsCore]
    by_cases h0 : n / 10 = 0
    · simp [h0]
    · simp only [h0, if_false]
      have := toDigitsCore_length_ge 10 n (n / 10)
        [Nat.digitChar (n % 10)]
      simpa using this
  intro hc
  rw [hc] at h
  simp at h

/-! ### The claims -/

/-- C1: a sequence of create calls against one list stores the created
todos in call order; from the fresh store the length of the stored
sequence equals the number of calls; each single create appends its
todo at the end of the sequence for its list, the absent key reading as
the empty sequence. -/
theorem create_calls_preserve_order_and_count
    (k : String) (calls : List (String × Nat)) (store : Store)
    (b : CreateReq) (now : Nat) (s : Store) :
    createSeq k calls store k =
      store k ++ calls.map (fun c => Todo.mk c.1 false c.2)
    ∧ createSeq k calls emptyStore k =
        calls.map (fun c => Todo.mk c.1 false c.2)
    ∧ (createSeq k calls emptyStore k).length = calls.length
    ∧ (createTodo (some b) now s).2 b.list =
        s b.list ++ [Todo.mk b.todo false now] := by
  refine ⟨createSeq_apply k calls store, ?_, ?_, ?_⟩
  · rw [createSeq_apply]; simp [emptyStore]
  · rw [createSeq_apply]; simp [emptyStore]
  · simp [createTodo, storeSet]

/-- C2: on a well-formed body the create handler builds the todo with
the request text as body, completed false and created_at the current
tick, appends it under the request list, and responds with exactly that
todo marshalled as JSON; a subsequent list-all snapshot ends with the
created todo, and its creation timestamp renders as non-empty text. -/
theorem create_handler_constructs_and_stores_todo
    (b : CreateReq) (now : Nat) (store : Store) :
    createTodo (some b) now store =
      (CreateResult.ok (Todo.mk b.todo false now)
        (todoJson (Todo.mk b.todo false now)),
       storeSet store b.list (store b.list ++ [Todo.mk b.todo false now]))
    ∧ (Todo.mk b.todo false now).completed = false
    ∧ (listTodos (createTodo (some b) now store).2).1 b.list =
        store b.list ++ [Todo.mk b.todo false now]
    ∧ ((listTodos (createTodo (some b) now store).2).1 b.list).getLast? =
        some (Todo.mk b.todo false now)
    ∧ timeJson now ≠ "" := by
  refine ⟨rfl, rfl, ?_, ?_, repr_ne_empty now⟩
  · simp [createTodo, listTodos, storeSet]
  · simp [createTodo, listTodos, storeSet]

/-- C3: the lines fetchall prints, in whatever completion order, number
exactly one per input URL; a URL whose GET or read fails contributes
its error line, a URL whose fetch succeeds contributes a summary line
ending in that URL, and no failure removes another URL from the
output. -/
theorem fetchall_yields_one_result_per_url
    (oracle : String → FetchOutcome) (urls out : List String)
    (hperm : out.Perm (fetchallLines oracle urls)) :
    out.length = urls.length
    ∧ (∀ u, u ∈ urls → fetchC oracle u ∈ out)
    ∧ (∀ u msg, oracle u = FetchOutcome.getError msg → fetchC oracle u = msg)
    ∧ (∀ u msg, oracle u = FetchOutcome.readError msg →
        fetchC oracle u = "while reading " ++ u ++ ": " ++ msg)
    ∧ (∀ u s n, oracle u = FetchOutcome.success s n →
        fetchC oracle u = (s ++ "s\t" ++ pad7 n ++ "\t") ++ u) := by
  refine ⟨?_, ?_, ?_, ?_, ?_⟩
  · rw [hperm.length_eq]; simp [fetchallLines]
  · intro u hu
    exact hperm.mem_iff.mpr (List.mem_map_of_mem (fetchC oracle) hu)
  · intro u msg h; simp [fetchC, h]
  · intro u msg h; simp [fetchC, h]
  · intro u s n h; simp [fetchC, h, String.append_assoc]

/-- Witness for C3 at a concrete run: two URLs, the first failing its
GET and the second succeeding, received in reversed completion order. -/
theorem fetchall_yields_one_result_per_url_witness :
    ((fetchallLines schemeOracle ["nope", "http://ok"]).reverse).Perm
      (fetchallLines schemeOracle ["nope", "http://ok"])
    ∧ ((fetchallLines schemeOracle ["nope", "http://ok"]).reverse).length =
        (["nope", "http://ok"] : List String).length := by
  refine ⟨List.reverse_perm _, ?_⟩
  exact (fetchall_yields_one_result_per_url schemeOracle
    ["nope", "http://ok"] (fetchallLines schemeOracle ["nope", "http://ok"]).reverse
    (List.reverse_perm _)).1

/-- C4 counterexample: the fan-out fetcher dispatches the GET for the
raw URL.  Under a network where every http:// URL succeeds and a URL
without a scheme fails, fetching example.com/x through the fan-out path
yields the no-scheme error line, while the normalized URL would have
succeeded; so the fan-out GET was not issued for a normalized URL. -/
theorem fetchall_dispatches_unnormalized_url :
    hasPrefix "example.com/x" "http://" = false
    ∧ fetchC schemeOracle "example.com/x" = "unsupported protocol scheme"
    ∧ fetchC schemeOracle (ensureProtocol "example.com/x") =
        "0.10s\t      5\thttp://example.com/x"
    ∧ fetchC schemeOracle "example.com/x" ≠
        fetchC schemeOracle (ensureProtocol "example.com/x") := by
  refine ⟨by decide, by decide, by decide, by decide⟩

/-- C4 amended: ensureProtocol prepends http:// exactly when the URL
does not already start with it and passes the URL through otherwise;
the sequential fetch path normalizes each argument before its GET, so
every URL it hands to http.Get starts with http://.  The fan-out
fetcher does not normalize (see the counterexample). -/
theorem fetch_normalizes_urls
    (u : String) (hu : hasPrefix u "http://" = false)
    (v : String) (hv : hasPrefix v "http://" = true)
    (oracle : String → FetchOutcome) (args : List String)
    (t : String) (ht : t ∈ fetchTargets oracle args) :
    ensureProtocol u = "http://" ++ u
    ∧ ensureProtocol v = v
    ∧ hasPrefix t "http://" = true := by
  refine ⟨by simp [ensureProtocol, hu], by simp [ensureProtocol, hv], ?_⟩
  clear hu hv
  induction args with
  | nil => simp [fetchTargets] at ht
  | cons a rest ih =>
    simp only [fetchTargets] at ht
    split at ht
    · simp at ht; subst ht; exact ensureProtocol_hasPrefix a
    · simp at ht; subst ht; exact ensureProtocol_hasPrefix a
    · rcases List.mem_cons.mp ht with h | h
      · subst h; exact ensureProtocol_hasPrefix a
      · exact ih h

/-- Witness for C4 amended at concrete inputs. -/
theorem fetch_normalizes_urls_witness :
    hasPrefix "example.com/x" "http://" = false
    ∧ hasPrefix "http://a" "http://" = true
    ∧ "http://a" ∈ fetchTargets schemeOracle ["a"]
    ∧ (ensureProtocol "example.com/x" = "http://" ++ "example.com/x"
       ∧ ensureProtocol "http://a" = "http://a"
       ∧ hasPrefix "http://a" "http://" = true) := by
  refine ⟨by decide, by decide, by decide, ?_⟩
  exact fetch_normalizes_urls "example.com/x" (by decide) "http://a" (by decide)
    schemeOracle ["a"] "http://a" (by decide)

/-- C5 counterexample: a decode failure does not terminate the server
process.  The handler raises its panic via log.Panic, the net/http
per-connection recover catches it, and serving continues: in a run
whose first create request has a malformed body and whose second is
well formed, the first request ends in the panic outcome with no
response, yet the second is still served and its todo stored — the
process did not terminate at the decode failure. -/
theorem decode_failure_does_not_stop_serving :
    (serve [(none, 0), (some (CreateReq.mk "Inbox" "buy milk"), 1)]
        emptyStore).2 =
      [CreateResult.panicked,
       CreateResult.ok (Todo.mk "buy milk" false 1)
         (todoJson (Todo.mk "buy milk" false 1))]
    ∧ (serve [(none, 0), (some (CreateReq.mk "Inbox" "buy milk"), 1)]
        emptyStore).1 "Inbox" = [Todo.mk "buy milk" false 1] := by
  refine ⟨by decide, by decide⟩

/-- C5 amended: a decode failure on the create endpoint aborts only
that request: the handler panics, so no response (normal or error) is
written and the store is untouched; the server harness recovers the
panic, so the remaining requests are processed exactly as if the
failed one had never arrived. -/
theorem create_decode_failure_aborts_request_only
    (now : Nat) (store : Store) (rest : List (Option CreateReq × Nat)) :
    createTodo none now store = (CreateResult.panicked, store)
    ∧ serve ((none, now) :: rest) store =
        ((serve rest store).1, CreateResult.panicked :: (serve rest store).2) := by
  exact ⟨rfl, rfl⟩

/-- C6: each root-path hit adds exactly one to the request count and
echoes the requested path in quotes; the count endpoint renders the
current count; after n root hits on the fresh server the count endpoint
answers Count n. -/
theorem root_hits_and_count_endpoint
    (cnt : Nat) (p : String) (paths : List String) :
    handler cnt p = (cnt + 1, "URL.Path = " ++ quoteStr p ++ "\n")
    ∧ counter cnt = (cnt, "Count " ++ Nat.repr cnt ++ "\n")
    ∧ runRoot 0 paths = paths.length
    ∧ (counter (runRoot 0 paths)).2 =
        "Count " ++ Nat.repr paths.length ++ "\n" := by
  have h := runRoot_eq paths 0
  simp only [Nat.zero_add] at h
  exact ⟨rfl, rfl, h, by rw [h]; rfl⟩

/-- C7: the unsynchronized map append of createTodo loses an entry when
two concurrent handlers interleave read, read, write, write on the same
list: two successful create calls leave a sequence of length one, the
first todo gone. -/
theorem unsynchronized_creates_lose_entry :
    createRace "Inbox" (Todo.mk "buy milk" false 0) (Todo.mk "feed cat" false 1)
      emptyStore "Inbox" = [Todo.mk "feed cat" false 1]
    ∧ (createRace "Inbox" (Todo.mk "buy milk" false 0)
        (Todo.mk "feed cat" false 1) emptyStore "Inbox").length ≠ 2 := by
  refine ⟨by decide, by decide⟩

/-- C8: a create call leaves every other list untouched and leaves the
stored sequence of its own list as an unchanged initial segment with
the new todo appended after it, so no field of a stored todo is ever
mutated; list-all returns the snapshot and leaves the store as it is;
no operation of the server deletes or updates a todo. -/
theorem todos_never_mutated
    (b : CreateReq) (now : Nat) (store : Store)
    (k : String) (hk : k ≠ b.list) :
    (createTodo (some b) now store).2 k = store k
    ∧ (createTodo (some b) now store).2 b.list =
        store b.list ++ [Todo.mk b.todo false now]
    ∧ ((createTodo (some b) now store).2 b.list).take
        (store b.list).length = store b.list
    ∧ listTodos store = (store, store) := by
  refine ⟨?_, ?_, ?_, rfl⟩
  · simp [createTodo, storeSet, hk]
  · simp [createTodo, storeSet]
  · simp [createTodo, storeSet, List.take_left]

/-- Witness for C8 at a concrete store holding todos in two lists. -/
theorem todos_never_mutated_witness :
    ("Other" : String) ≠ "Inbox"
    ∧ (createTodo (some (CreateReq.mk "Inbox" "x")) 5
        (storeSet (storeSet emptyStore "Inbox" [Todo.mk "a" false 0])
          "Other" [Todo.mk "b" false 1])).2 "Other" =
        (storeSet (storeSet emptyStore "Inbox" [Todo.mk "a" false 0])
          "Other" [Todo.mk "b" false 1]) "Other" := by
  refine ⟨by decide, ?_⟩
  exact (todos_never_mutated (CreateReq.mk "Inbox" "x") 5
    (storeSet (storeSet emptyStore "Inbox" [Todo.mk "a" false 0])
      "Other" [Todo.mk "b" false 1]) "Other" (by decide)).1

/-- C9: ensureProtocol is idempotent and its output always starts with
http://. -/
theorem ensureProtocol_idempotent_and_scheme (u : String) :
    ensureProtocol (ensureProtocol u) = ensureProtocol u
    ∧ hasPrefix (ensureProtocol u) "http://" = true := by
  refine ⟨?_, ensureProtocol_hasPrefix u⟩
  have h := ensureProtocol_hasPrefix u
  unfold ensureProtocol
  simp [ensureProtocol] at h
  simp [h]

/-- C10: a create request whose body fails to decode mutates nothing:
the store maps every key to exactly the sequence it held before the
call, the panic firing before any append. -/
theorem create_decode_failure_leaves_store
    (now : Nat) (store : Store) (k : String) :
    (createTodo none now store).2 k = store k := rfl

end Godo
